import Mathlib

/-!
Verification of the CBA sizing tool's formula pipeline.

The repository holds two variants of a single-page financial estimator:
`CBA_calculator1.py` (v0.2) and `cba_calculator.py` (v0.3).  Each evaluation
reads a small input record (CAPEX entry mode, size, cost figures, rates,
two boolean flags) and computes annual profit and the annual/lifetime
Community Benefit Agreement (CBA) dollar ranges by closed-form arithmetic.
We embed the numeric pipeline over `ℚ`: every constant in the source is an
exact decimal, and every operation is `+ - * /`, so the rational semantics
coincides with the formulas as written.

Namespace `V2` embeds `CBA_calculator1.py`, namespace `V3` embeds
`cba_calculator.py`, with the source's variable names kept.
-/

namespace CBA

/-- The radio-button choice of `input_mode`: estimating total CAPEX from a
cost per kW, or entering the total CAPEX directly. -/
inductive CapexMode
  | perKW
  | total
deriving DecidableEq, Repr

namespace V2

/-- The user-supplied inputs of `CBA_calculator1.py`'s calculator tab:
`input_mode`, `size_mw`, the two possible CAPEX entries (only the one
selected by the mode is read), `target_irr`, `interest_rate` and the two
checkbox flags. -/
structure Input where
  mode : CapexMode
  size_mw : ℚ
  capex_kw_in : ℚ
  capex_total_in : ℚ
  target_irr : ℚ
  interest_rate : ℚ
  ej_flag : Bool
  urban_flag : Bool
deriving DecidableEq, Repr

/-- `capex_total`: in per-kW mode `size_mw * 1000 * capex_kw`, otherwise the
directly entered total (lines 52-63). -/
def capex_total (i : Input) : ℚ :=
  if i.mode = CapexMode.perKW then i.size_mw * 1000 * i.capex_kw_in
  else i.capex_total_in

/-- `capex_kw`: the per-kW entry in per-kW mode, otherwise derived as
`capex_total / (size_mw * 1000)` (line 63). -/
def capex_kw (i : Input) : ℚ :=
  if i.mode = CapexMode.perKW then i.capex_kw_in
  else i.capex_total_in / (i.size_mw * 1000)

/-- `leverage = 0.70`, the fixed 70 percent debt share (line 71). -/
def leverage : ℚ := 0.70

/-- `equity_share = 1 - leverage` (line 72). -/
def equity_share : ℚ := 1 - leverage

/-- `equity = capex_total * equity_share` (line 74). -/
def equity (i : Input) : ℚ := capex_total i * equity_share

/-- `debt = capex_total * leverage` (line 75). -/
def debt (i : Input) : ℚ := capex_total i * leverage

/-- `annual_profit = (target_irr / 100) * equity + (interest_rate / 100) * debt`
(line 77). -/
def annual_profit (i : Input) : ℚ :=
  i.target_irr / 100 * equity i + i.interest_rate / 100 * debt i

/-- `base_low_pct = 0.004` (line 86). -/
def base_low_pct : ℚ := 0.004

/-- `base_high_pct = 0.014` (line 86). -/
def base_high_pct : ℚ := 0.014

/-- `pct_multiplier`: starts at 1.0; `*= 1.5` when the EJ flag is on and
`*= 1.5` when the urban flag is on (lines 87-91). -/
def pct_multiplier (i : Input) : ℚ :=
  let m : ℚ := 1.0
  let m := if i.ej_flag then m * 1.5 else m
  let m := if i.urban_flag then m * 1.5 else m
  m

/-- `cba_low_pct = base_low_pct * pct_multiplier` (line 93). -/
def cba_low_pct (i : Input) : ℚ := base_low_pct * pct_multiplier i

/-- `cba_high_pct = base_high_pct * pct_multiplier` (line 94). -/
def cba_high_pct (i : Input) : ℚ := base_high_pct * pct_multiplier i

/-- `annual_cba_low = annual_profit * cba_low_pct` (line 96). -/
def annual_cba_low (i : Input) : ℚ := annual_profit i * cba_low_pct i

/-- `annual_cba_high = annual_profit * cba_high_pct` (line 97). -/
def annual_cba_high (i : Input) : ℚ := annual_profit i * cba_high_pct i

/-- `project_life = 20`, the fixed asset life (line 99). -/
def project_life : ℚ := 20

/-- `lifetime_cba_low = annual_cba_low * project_life` (line 100). -/
def lifetime_cba_low (i : Input) : ℚ := annual_cba_low i * project_life

/-- `lifetime_cba_high = annual_cba_high * project_life` (line 101). -/
def lifetime_cba_high (i : Input) : ℚ := annual_cba_high i * project_life

/-- The result record the calculator tab renders (lines 107-113). -/
structure Result where
  capex_total : ℚ
  capex_kw : ℚ
  annual_profit : ℚ
  annual_cba_low : ℚ
  annual_cba_high : ℚ
  lifetime_cba_low : ℚ
  lifetime_cba_high : ℚ
deriving DecidableEq, Repr

/-- One full evaluation of the v0.2 pipeline. -/
def compute (i : Input) : Result :=
  { capex_total := capex_total i
    capex_kw := capex_kw i
    annual_profit := annual_profit i
    annual_cba_low := annual_cba_low i
    annual_cba_high := annual_cba_high i
    lifetime_cba_low := lifetime_cba_low i
    lifetime_cba_high := lifetime_cba_high i }

end V2

namespace V3

/-- The user-supplied inputs of `cba_calculator.py`'s calculator tab: as in
v0.2, except that the debt-cost entry is the Federal Funds Rate `fed_rate`
(line 74) instead of a direct interest rate. -/
structure Input where
  mode : CapexMode
  size_mw : ℚ
  capex_kw_in : ℚ
  capex_total_in : ℚ
  target_irr : ℚ
  fed_rate : ℚ
  ej_flag : Bool
  urban_flag : Bool
deriving DecidableEq, Repr

/-- `capex_total`: in per-kW mode `size_mw * 1000 * capex_kw`, otherwise the
directly entered total (lines 49-67). -/
def capex_total (i : Input) : ℚ :=
  if i.mode = CapexMode.perKW then i.size_mw * 1000 * i.capex_kw_in
  else i.capex_total_in

/-- `capex_kw`: the per-kW entry in per-kW mode, otherwise derived as
`capex_total / (size_mw * 1000)` (line 67). -/
def capex_kw (i : Input) : ℚ :=
  if i.mode = CapexMode.perKW then i.capex_kw_in
  else i.capex_total_in / (i.size_mw * 1000)

/-- `margin = 2.0`, the fixed margin over the Fed rate (line 76). -/
def margin : ℚ := 2.0

/-- `interest_rate_pct = fed_rate + margin` (line 77). -/
def interest_rate_pct (i : Input) : ℚ := i.fed_rate + margin

/-- `leverage = 0.70`, the fixed 70 percent debt share (line 82). -/
def leverage : ℚ := 0.70

/-- `equity_share = 1 - leverage` (line 83). -/
def equity_share : ℚ := 1 - leverage

/-- `equity = capex_total * equity_share` (line 85). -/
def equity (i : Input) : ℚ := capex_total i * equity_share

/-- `debt = capex_total * leverage` (line 86). -/
def debt (i : Input) : ℚ := capex_total i * leverage

/-- `annual_profit = (target_irr / 100) * equity + (interest_rate_pct / 100) * debt`
(line 88). -/
def annual_profit (i : Input) : ℚ :=
  i.target_irr / 100 * equity i + interest_rate_pct i / 100 * debt i

/-- `base_low_pct = 0.0025` (line 105). -/
def base_low_pct : ℚ := 0.0025

/-- `base_high_pct = 0.0075` (line 105). -/
def base_high_pct : ℚ := 0.0075

/-- `pct_multiplier`: starts at 1.0; `*= 1.15` when the EJ flag is on and
`*= 1.15` when the urban flag is on (lines 106-110). -/
def pct_multiplier (i : Input) : ℚ :=
  let m : ℚ := 1.0
  let m := if i.ej_flag then m * 1.15 else m
  let m := if i.urban_flag then m * 1.15 else m
  m

/-- `cba_low_pct = base_low_pct * pct_multiplier` (line 112). -/
def cba_low_pct (i : Input) : ℚ := base_low_pct * pct_multiplier i

/-- `cba_high_pct = base_high_pct * pct_multiplier` (line 113). -/
def cba_high_pct (i : Input) : ℚ := base_high_pct * pct_multiplier i

/-- `annual_cba_low = annual_profit * cba_low_pct` (line 115). -/
def annual_cba_low (i : Input) : ℚ := annual_profit i * cba_low_pct i

/-- `annual_cba_high = annual_profit * cba_high_pct` (line 116). -/
def annual_cba_high (i : Input) : ℚ := annual_profit i * cba_high_pct i

/-- `project_life = 20`, the fixed asset life (line 118). -/
def project_life : ℚ := 20

/-- `lifetime_cba_low = annual_cba_low * project_life` (line 119). -/
def lifetime_cba_low (i : Input) : ℚ := annual_cba_low i * project_life

/-- `lifetime_cba_high = annual_cba_high * project_life` (line 120). -/
def lifetime_cba_high (i : Input) : ℚ := annual_cba_high i * project_life

/-- The result record the calculator tab renders (lines 126-132). -/
structure Result where
  capex_total : ℚ
  capex_kw : ℚ
  annual_profit : ℚ
  annual_cba_low : ℚ
  annual_cba_high : ℚ
  lifetime_cba_low : ℚ
  lifetime_cba_high : ℚ
deriving DecidableEq, Repr

/-- One full evaluation of the v0.3 pipeline. -/
def compute (i : Input) : Result :=
  { capex_total := capex_total i
    capex_kw := capex_kw i
    annual_profit := annual_profit i
    annual_cba_low := annual_cba_low i
    annual_cba_high := annual_cba_high i
    lifetime_cba_low := lifetime_cba_low i
    lifetime_cba_high := lifetime_cba_high i }

end V3

/-- The spec's later-variant test vector: `sizeMW = 500`, `capexPerKW = 1100`,
per-kW mode, `targetIRR = 15`, `fed_rate = 5.25` (so interest 7.25), both
flags on.  The unused total-CAPEX entry holds the widget default. -/
def scenario_v3 : V3.Input :=
  { mode := CapexMode.perKW
    size_mw := 500
    capex_kw_in := 1100
    capex_total_in := 670000000
    target_irr := 15
    fed_rate := 5.25
    ej_flag := true
    urban_flag := true }

/-- A concrete v0.2 input in total-CAPEX mode, used to instantiate theorems
with hypotheses: the widget defaults with both flags off. -/
def sample_v2 : V2.Input :=
  { mode := CapexMode.total
    size_mw := 500
    capex_kw_in := 1100
    capex_total_in := 670000000
    target_irr := 15
    interest_rate := 5
    ej_flag := false
    urban_flag := false }

/-- A concrete v0.3 input in total-CAPEX mode, used to instantiate theorems
with hypotheses: the widget defaults with both flags off. -/
def sample_v3 : V3.Input :=
  { mode := CapexMode.total
    size_mw := 500
    capex_kw_in := 1100
    capex_total_in := 670000000
    target_irr := 15
    fed_rate := 5.25
    ej_flag := false
    urban_flag := false }

/-- Turning flags on: the input with `ej_flag` (resp. `urban_flag`) switched
on when `e` (resp. `u`) is true, and every other field unchanged. -/
def V2.enable_flags (i : V2.Input) (e u : Bool) : V2.Input :=
  { i with ej_flag := i.ej_flag || e, urban_flag := i.urban_flag || u }

/-- Turning flags on: the input with `ej_flag` (resp. `urban_flag`) switched
on when `e` (resp. `u`) is true, and every other field unchanged. -/
def V3.enable_flags (i : V3.Input) (e u : Bool) : V3.Input :=
  { i with ej_flag := i.ej_flag || e, urban_flag := i.urban_flag || u }

/-- A product of the shape `profit * (base * multiplier)` is monotone in the
multiplier when the profit and the base percentage are non-negative. -/
theorem cba_mono_aux (p b m m' : ℚ) (hp : 0 ≤ p) (hb : 0 ≤ b) (hm : m ≤ m') :
    p * (b * m) ≤ p * (b * m') :=
  mul_le_mul_of_nonneg_left (mul_le_mul_of_nonneg_left hm hb) hp

/-- The v0.2 flag multiplier is at least 1 for every flag combination. -/
theorem v2_one_le_pct_multiplier (i : V2.Input) : 1 ≤ V2.pct_multiplier i := by
  simp only [V2.pct_multiplier]
  cases i.ej_flag <;> cases i.urban_flag <;> norm_num

/-- The v0.3 flag multiplier is at least 1 for every flag combination. -/
theorem v3_one_le_pct_multiplier (i : V3.Input) : 1 ≤ V3.pct_multiplier i := by
  simp only [V3.pct_multiplier]
  cases i.ej_flag <;> cases i.urban_flag <;> norm_num

end CBA

namespace CBA

/-- C1: with leverage fixed at 0.70 and the equity share at 0.30, both
later variants compute
`annual_profit = (target_irr/100) * equity + (interest_rate/100) * debt`
with `equity = capex_total * 0.30` and `debt = capex_total * 0.70`
(in v0.3 the interest rate is `interest_rate_pct = fed_rate + 2`). -/
theorem c1_annual_profit_blended :
    (∀ i : V2.Input,
        V2.annual_profit i =
          i.target_irr / 100 * (V2.capex_total i * 0.30) +
            i.interest_rate / 100 * (V2.capex_total i * 0.70)) ∧
    (∀ i : V3.Input,
        V3.annual_profit i =
          i.target_irr / 100 * (V3.capex_total i * 0.30) +
            V3.interest_rate_pct i / 100 * (V3.capex_total i * 0.70)) := by
  constructor <;> intro i <;>
    simp only [V2.annual_profit, V2.equity, V2.debt, V2.equity_share, V2.leverage,
      V3.annual_profit, V3.equity, V3.debt, V3.equity_share, V3.leverage] <;>
    norm_num

/-- C2 counterexample: on the spec's scenario (500 MW, 1100 $/kW, IRR 15,
fed rate 5.25, both flags on) the v0.3 pipeline's annual CBA low is exactly
174115.390625, which is more than a dollar away from the claimed 174112;
the other three claimed dollar figures are likewise off by more than a
dollar from the exact outputs. -/
theorem c2_scenario_counterexample :
    V3.annual_cba_low scenario_v3 = 174115.390625 ∧
    ¬ |V3.annual_cba_low scenario_v3 - 174112| ≤ 1 ∧
    ¬ |V3.annual_cba_high scenario_v3 - 522336| ≤ 1 ∧
    ¬ |V3.lifetime_cba_low scenario_v3 - 3482234| ≤ 1 ∧
    ¬ |V3.lifetime_cba_high scenario_v3 - 10446702| ≤ 1 := by
  norm_num [V3.annual_cba_low, V3.annual_cba_high, V3.lifetime_cba_low,
    V3.lifetime_cba_high, V3.annual_profit, V3.cba_low_pct, V3.cba_high_pct,
    V3.base_low_pct, V3.base_high_pct, V3.pct_multiplier, V3.equity, V3.debt,
    V3.equity_share, V3.leverage, V3.interest_rate_pct, V3.margin,
    V3.capex_total, V3.project_life, scenario_v3, abs]

/-- C2 amended: on the spec's scenario the v0.3 pipeline yields
`capex_total = 550,000,000`, `annual_profit = 52,662,500`, multiplier
1.3225, and the exact CBA figures 174115.390625 / 522346.171875 annually
and 3482307.8125 / 10446923.4375 over the 20-year life. -/
theorem c2_scenario_exact :
    V3.capex_total scenario_v3 = 550000000 ∧
    V3.annual_profit scenario_v3 = 52662500 ∧
    V3.pct_multiplier scenario_v3 = 1.3225 ∧
    V3.annual_cba_low scenario_v3 = 174115.390625 ∧
    V3.annual_cba_high scenario_v3 = 522346.171875 ∧
    V3.lifetime_cba_low scenario_v3 = 3482307.8125 ∧
    V3.lifetime_cba_high scenario_v3 = 10446923.4375 := by
  norm_num [V3.annual_cba_low, V3.annual_cba_high, V3.lifetime_cba_low,
    V3.lifetime_cba_high, V3.annual_profit, V3.cba_low_pct, V3.cba_high_pct,
    V3.base_low_pct, V3.base_high_pct, V3.pct_multiplier, V3.equity, V3.debt,
    V3.equity_share, V3.leverage, V3.interest_rate_pct, V3.margin,
    V3.capex_total, V3.project_life, scenario_v3]

/-- C3: in both variants, whichever CAPEX field is user-entered,
`capex_total = size_mw * 1000 * capex_kw` holds for positive sizes: in
per-kW mode by definition, and in total mode the derived
`capex_kw = capex_total / (size_mw * 1000)` round-trips back. -/
theorem c3_capex_round_trip :
    (∀ i : V2.Input, 0 < i.size_mw →
        V2.capex_total i = i.size_mw * 1000 * V2.capex_kw i) ∧
    (∀ i : V3.Input, 0 < i.size_mw →
        V3.capex_total i = i.size_mw * 1000 * V3.capex_kw i) := by
  constructor <;> intro i h <;> rcases hm : i.mode with _ | _ <;>
    simp only [V2.capex_total, V2.capex_kw, V3.capex_total, V3.capex_kw, hm] <;>
    field_simp

/-- C3 witness: the round-trip identity instantiated at the concrete
total-CAPEX-mode samples. -/
theorem c3_capex_round_trip_witness :
    V2.capex_total sample_v2 = sample_v2.size_mw * 1000 * V2.capex_kw sample_v2 ∧
    V3.capex_total sample_v3 = sample_v3.size_mw * 1000 * V3.capex_kw sample_v3 :=
  ⟨c3_capex_round_trip.1 sample_v2 (by norm_num [sample_v2]),
   c3_capex_round_trip.2 sample_v3 (by norm_num [sample_v3])⟩

/-- C4: in both variants the flag multiplier equals the product of one
configured factor per active flag (so it starts at 1.0 and compounds
multiplicatively), it never decreases when any flag goes from off to on,
and consequently, for non-negative annual profit, enabling flags never
decreases the annual or lifetime CBA bounds. -/
theorem c4_flag_monotone :
    ((∀ i : V2.Input, V2.pct_multiplier i =
        (if i.ej_flag then (1.5 : ℚ) else 1) * (if i.urban_flag then (1.5 : ℚ) else 1)) ∧
      ∀ (i : V2.Input) (e u : Bool),
        V2.pct_multiplier i ≤ V2.pct_multiplier (V2.enable_flags i e u) ∧
        (0 ≤ V2.annual_profit i →
          V2.annual_cba_low i ≤ V2.annual_cba_low (V2.enable_flags i e u) ∧
          V2.annual_cba_high i ≤ V2.annual_cba_high (V2.enable_flags i e u) ∧
          V2.lifetime_cba_low i ≤ V2.lifetime_cba_low (V2.enable_flags i e u) ∧
          V2.lifetime_cba_high i ≤ V2.lifetime_cba_high (V2.enable_flags i e u))) ∧
    ((∀ i : V3.Input, V3.pct_multiplier i =
        (if i.ej_flag then (1.15 : ℚ) else 1) * (if i.urban_flag then (1.15 : ℚ) else 1)) ∧
      ∀ (i : V3.Input) (e u : Bool),
        V3.pct_multiplier i ≤ V3.pct_multiplier (V3.enable_flags i e u) ∧
        (0 ≤ V3.annual_profit i →
          V3.annual_cba_low i ≤ V3.annual_cba_low (V3.enable_flags i e u) ∧
          V3.annual_cba_high i ≤ V3.annual_cba_high (V3.enable_flags i e u) ∧
          V3.lifetime_cba_low i ≤ V3.lifetime_cba_low (V3.enable_flags i e u) ∧
          V3.lifetime_cba_high i ≤ V3.lifetime_cba_high (V3.enable_flags i e u))) := by
  constructor
  · have hprod : ∀ i : V2.Input, V2.pct_multiplier i =
        (if i.ej_flag then (1.5 : ℚ) else 1) * (if i.urban_flag then (1.5 : ℚ) else 1) := by
      intro i
      simp only [V2.pct_multiplier]
      cases i.ej_flag <;> cases i.urban_flag <;> norm_num
    refine ⟨hprod, fun i e u => ?_⟩
    have hprofit : V2.annual_profit (V2.enable_flags i e u) = V2.annual_profit i := rfl
    have hm : V2.pct_multiplier i ≤ V2.pct_multiplier (V2.enable_flags i e u) := by
      rw [hprod, hprod]
      show (if i.ej_flag then (1.5 : ℚ) else 1) * (if i.urban_flag then (1.5 : ℚ) else 1) ≤
        (if i.ej_flag || e then (1.5 : ℚ) else 1) * (if i.urban_flag || u then (1.5 : ℚ) else 1)
      cases i.ej_flag <;> cases e <;> cases i.urban_flag <;> cases u <;> norm_num
    refine ⟨hm, fun hp => ⟨?_, ?_, ?_, ?_⟩⟩
    · exact cba_mono_aux _ _ _ _ hp (by norm_num [V2.base_low_pct]) hm
    · exact cba_mono_aux _ _ _ _ hp (by norm_num [V2.base_high_pct]) hm
    · simpa [V2.lifetime_cba_low, V2.annual_cba_low, V2.cba_low_pct, hprofit] using
        mul_le_mul_of_nonneg_right
          (cba_mono_aux _ _ _ _ hp (by norm_num [V2.base_low_pct]) hm)
          (by norm_num [V2.project_life] : (0:ℚ) ≤ V2.project_life)
    · simpa [V2.lifetime_cba_high, V2.annual_cba_high, V2.cba_high_pct, hprofit] using
        mul_le_mul_of_nonneg_right
          (cba_mono_aux _ _ _ _ hp (by norm_num [V2.base_high_pct]) hm)
          (by norm_num [V2.project_life] : (0:ℚ) ≤ V2.project_life)
  · have hprod : ∀ i : V3.Input, V3.pct_multiplier i =
        (if i.ej_flag then (1.15 : ℚ) else 1) * (if i.urban_flag then (1.15 : ℚ) else 1) := by
      intro i
      simp only [V3.pct_multiplier]
      cases i.ej_flag <;> cases i.urban_flag <;> norm_num
    refine ⟨hprod, fun i e u => ?_⟩
    have hprofit : V3.annual_profit (V3.enable_flags i e u) = V3.annual_profit i := rfl
    have hm : V3.pct_multiplier i ≤ V3.pct_multiplier (V3.enable_flags i e u) := by
      rw [hprod, hprod]
      show (if i.ej_flag then (1.15 : ℚ) else 1) * (if i.urban_flag then (1.15 : ℚ) else 1) ≤
        (if i.ej_flag || e then (1.15 : ℚ) else 1) * (if i.urban_flag || u then (1.15 : ℚ) else 1)
      cases i.ej_flag <;> cases e <;> cases i.urban_flag <;> cases u <;> norm_num
    refine ⟨hm, fun hp => ⟨?_, ?_, ?_, ?_⟩⟩
    · exact cba_mono_aux _ _ _ _ hp (by norm_num [V3.base_low_pct]) hm
    · exact cba_mono_aux _ _ _ _ hp (by norm_num [V3.base_high_pct]) hm
    · simpa [V3.lifetime_cba_low, V3.annual_cba_low, V3.cba_low_pct, hprofit] using
        mul_le_mul_of_nonneg_right
          (cba_mono_aux _ _ _ _ hp (by norm_num [V3.base_low_pct]) hm)
          (by norm_num [V3.project_life] : (0:ℚ) ≤ V3.project_life)
    · simpa [V3.lifetime_cba_high, V3.annual_cba_high, V3.cba_high_pct, hprofit] using
        mul_le_mul_of_nonneg_right
          (cba_mono_aux _ _ _ _ hp (by norm_num [V3.base_high_pct]) hm)
          (by norm_num [V3.project_life] : (0:ℚ) ≤ V3.project_life)

/-- C4 witness: enabling both flags on the concrete samples (which have
non-negative annual profit) does not decrease the annual CBA low bound. -/
theorem c4_flag_monotone_witness :
    V2.annual_cba_low sample_v2 ≤ V2.annual_cba_low (V2.enable_flags sample_v2 true true) ∧
    V3.annual_cba_low sample_v3 ≤ V3.annual_cba_low (V3.enable_flags sample_v3 true true) :=
  ⟨((c4_flag_monotone.1.2 sample_v2 true true).2
      (by norm_num [V2.annual_profit, V2.equity, V2.debt, V2.equity_share,
        V2.leverage, V2.capex_total, sample_v2,
        show (CapexMode.total = CapexMode.perKW) = False from by simp])).1,
   ((c4_flag_monotone.2.2 sample_v3 true true).2
      (by norm_num [V3.annual_profit, V3.equity, V3.debt, V3.equity_share,
        V3.leverage, V3.interest_rate_pct, V3.margin, V3.capex_total, sample_v3,
        show (CapexMode.total = CapexMode.perKW) = False from by simp])).1⟩

/-- C5: in both variants and for every flag combination the multiplied band
keeps its order, `cba_low_pct ≤ cba_high_pct`, and hence for non-negative
annual profit `annual_cba_low ≤ annual_cba_high`. -/
theorem c5_band_order :
    (∀ i : V2.Input,
        V2.cba_low_pct i ≤ V2.cba_high_pct i ∧
        (0 ≤ V2.annual_profit i → V2.annual_cba_low i ≤ V2.annual_cba_high i)) ∧
    (∀ i : V3.Input,
        V3.cba_low_pct i ≤ V3.cba_high_pct i ∧
        (0 ≤ V3.annual_profit i → V3.annual_cba_low i ≤ V3.annual_cba_high i)) := by
  constructor
  · intro i
    have hm : (0:ℚ) ≤ V2.pct_multiplier i :=
      le_trans zero_le_one (v2_one_le_pct_multiplier i)
    have hband : V2.cba_low_pct i ≤ V2.cba_high_pct i := by
      have hb : V2.base_low_pct ≤ V2.base_high_pct := by
        norm_num [V2.base_low_pct, V2.base_high_pct]
      exact mul_le_mul_of_nonneg_right hb hm
    exact ⟨hband, fun hp => mul_le_mul_of_nonneg_left hband hp⟩
  · intro i
    have hm : (0:ℚ) ≤ V3.pct_multiplier i :=
      le_trans zero_le_one (v3_one_le_pct_multiplier i)
    have hband : V3.cba_low_pct i ≤ V3.cba_high_pct i := by
      have hb : V3.base_low_pct ≤ V3.base_high_pct := by
        norm_num [V3.base_low_pct, V3.base_high_pct]
      exact mul_le_mul_of_nonneg_right hb hm
    exact ⟨hband, fun hp => mul_le_mul_of_nonneg_left hband hp⟩

/-- C5 witness: the band-order consequence instantiated at the concrete
samples, whose annual profit is non-negative. -/
theorem c5_band_order_witness :
    V2.annual_cba_low sample_v2 ≤ V2.annual_cba_high sample_v2 ∧
    V3.annual_cba_low sample_v3 ≤ V3.annual_cba_high sample_v3 :=
  ⟨(c5_band_order.1 sample_v2).2
      (by norm_num [V2.annual_profit, V2.equity, V2.debt, V2.equity_share,
        V2.leverage, V2.capex_total, sample_v2,
        show (CapexMode.total = CapexMode.perKW) = False from by simp]),
   (c5_band_order.2 sample_v3).2
      (by norm_num [V3.annual_profit, V3.equity, V3.debt, V3.equity_share,
        V3.leverage, V3.interest_rate_pct, V3.margin, V3.capex_total, sample_v3,
        show (CapexMode.total = CapexMode.perKW) = False from by simp])⟩

/-- C6: in both variants the lifetime figures are exactly the annual
figures times the fixed 20-year project life. -/
theorem c6_lifetime_is_twenty_annual :
    (∀ i : V2.Input,
        V2.lifetime_cba_low i = V2.annual_cba_low i * 20 ∧
        V2.lifetime_cba_high i = V2.annual_cba_high i * 20) ∧
    (∀ i : V3.Input,
        V3.lifetime_cba_low i = V3.annual_cba_low i * 20 ∧
        V3.lifetime_cba_high i = V3.annual_cba_high i * 20) :=
  ⟨fun _ => ⟨rfl, rfl⟩, fun _ => ⟨rfl, rfl⟩⟩

/-- C7: both pipelines are deterministic pure functions of the input
record: evaluations on equal inputs give equal result records. -/
theorem c7_deterministic :
    (∀ i j : V2.Input, i = j → V2.compute i = V2.compute j) ∧
    (∀ i j : V3.Input, i = j → V3.compute i = V3.compute j) :=
  ⟨fun i j h => by rw [h], fun i j h => by rw [h]⟩

/-- C7 witness: determinism instantiated at the concrete samples. -/
theorem c7_deterministic_witness :
    V2.compute sample_v2 = V2.compute sample_v2 ∧
    V3.compute sample_v3 = V3.compute sample_v3 :=
  ⟨c7_deterministic.1 sample_v2 sample_v2 rfl,
   c7_deterministic.2 sample_v3 sample_v3 rfl⟩

/-- C9: in total-CAPEX mode every result field other than the display-only
derived `capex_kw` is unchanged when only `size_mw` changes: `capex_total`,
`annual_profit` and all four CBA bounds are independent of the size. -/
theorem c9_size_independent_in_total_mode :
    (∀ (i : V2.Input) (s : ℚ), i.mode = CapexMode.total →
        V2.capex_total { i with size_mw := s } = V2.capex_total i ∧
        V2.annual_profit { i with size_mw := s } = V2.annual_profit i ∧
        V2.annual_cba_low { i with size_mw := s } = V2.annual_cba_low i ∧
        V2.annual_cba_high { i with size_mw := s } = V2.annual_cba_high i ∧
        V2.lifetime_cba_low { i with size_mw := s } = V2.lifetime_cba_low i ∧
        V2.lifetime_cba_high { i with size_mw := s } = V2.lifetime_cba_high i) ∧
    (∀ (i : V3.Input) (s : ℚ), i.mode = CapexMode.total →
        V3.capex_total { i with size_mw := s } = V3.capex_total i ∧
        V3.annual_profit { i with size_mw := s } = V3.annual_profit i ∧
        V3.annual_cba_low { i with size_mw := s } = V3.annual_cba_low i ∧
        V3.annual_cba_high { i with size_mw := s } = V3.annual_cba_high i ∧
        V3.lifetime_cba_low { i with size_mw := s } = V3.lifetime_cba_low i ∧
        V3.lifetime_cba_high { i with size_mw := s } = V3.lifetime_cba_high i) := by
  constructor
  · intro i s h
    have hct : V2.capex_total { i with size_mw := s } = V2.capex_total i := by
      simp [V2.capex_total, h]
    refine ⟨hct, ?_, ?_, ?_, ?_, ?_⟩ <;>
      simp [V2.annual_profit, V2.annual_cba_low, V2.annual_cba_high,
        V2.lifetime_cba_low, V2.lifetime_cba_high, V2.cba_low_pct, V2.cba_high_pct,
        V2.pct_multiplier, V2.equity, V2.debt, hct]
  · intro i s h
    have hct : V3.capex_total { i with size_mw := s } = V3.capex_total i := by
      simp [V3.capex_total, h]
    refine ⟨hct, ?_, ?_, ?_, ?_, ?_⟩ <;>
      simp [V3.annual_profit, V3.annual_cba_low, V3.annual_cba_high,
        V3.lifetime_cba_low, V3.lifetime_cba_high, V3.cba_low_pct, V3.cba_high_pct,
        V3.pct_multiplier, V3.equity, V3.debt, V3.interest_rate_pct, hct]

/-- C9 witness: changing only the size on the concrete total-CAPEX-mode
samples leaves the annual profit unchanged. -/
theorem c9_size_independent_witness :
    V2.annual_profit { sample_v2 with size_mw := 250 } = V2.annual_profit sample_v2 ∧
    V3.annual_profit { sample_v3 with size_mw := 250 } = V3.annual_profit sample_v3 :=
  ⟨(c9_size_independent_in_total_mode.1 sample_v2 250 rfl).2.1,
   (c9_size_independent_in_total_mode.2 sample_v3 250 rfl).2.1⟩

/-- C10: the annual-profit step is the same function of CAPEX, IRR and
effective interest rate in both variants: v0.2 with interest rate `r`
agrees with v0.3 with fed rate `r - 2` (interest `r - 2 + 2 = r`) on every
input configuration. -/
theorem c10_profit_step_equivalent :
    ∀ (m : CapexMode) (size ckw ctot irr r : ℚ) (ej ub : Bool),
      V2.annual_profit
        { mode := m, size_mw := size, capex_kw_in := ckw, capex_total_in := ctot,
          target_irr := irr, interest_rate := r, ej_flag := ej, urban_flag := ub } =
      V3.annual_profit
        { mode := m, size_mw := size, capex_kw_in := ckw, capex_total_in := ctot,
          target_irr := irr, fed_rate := r - 2, ej_flag := ej, urban_flag := ub } := by
  intro m size ckw ctot irr r ej ub
  rcases m with _ | _ <;>
    simp only [V2.annual_profit, V2.equity, V2.debt, V2.equity_share, V2.leverage,
      V2.capex_total, V3.annual_profit, V3.equity, V3.debt, V3.equity_share,
      V3.leverage, V3.capex_total, V3.interest_rate_pct, V3.margin] <;> ring

/-- C8: in both variants the fixed equity share and leverage sum to
exactly 1. -/
theorem c8_shares_sum_to_one :
    V2.equity_share + V2.leverage = 1 ∧ V3.equity_share + V3.leverage = 1 := by
  constructor <;>
    norm_num [V2.equity_share, V2.leverage, V3.equity_share, V3.leverage]

end CBA
